import Mathlib

/-!
Verification development for the psql-shell repository (src/cli.ts).

The shallow embedding below translates the command dispatch loop of
src/cli.ts into Lean. Strings are modelled as lists of characters so that
all operations are executable and decidable. External collaborators (the
pg client, knex, quick-erd schema introspection) are parameters of the
model, collected in the Env structure; the repository code under src/ is
translated literally on top of them.

Source correspondence is noted next to each definition with the line
numbers of src/cli.ts.
-/

/-- Whitespace test used by trimming; models the ASCII part of the
JavaScript String.trim behaviour (cli.ts line 179 applies trim to the
accumulated input). -/
def isWsp (c : Char) : Bool :=
  c = ' ' || c = '\t' || c = '\n' || c = '\r'

/-- Trim from both ends, the model of the JavaScript trim call on
cli.ts line 179. -/
def trimL (s : List Char) : List Char :=
  ((s.dropWhile isWsp).reverse.dropWhile isWsp).reverse

/-- Replace the first occurrence of a pattern, the model of the
JavaScript String.replace with a plain string pattern (cli.ts line 248
uses it twice to strip the backslash-d marker and one semicolon). -/
def replaceFirst (pat repl : List Char) : List Char → List Char
  | [] => []
  | c :: rest =>
    if pat.isPrefixOf (c :: rest) then repl ++ (c :: rest).drop pat.length
    else c :: replaceFirst pat repl rest

/-- Character class of the regular expression on cli.ts line 209:
word characters (ASCII letters, digits, underscore) plus hyphen. -/
def isIdChar (c : Char) : Bool :=
  c.isAlpha || c.isDigit || c = '_' || c = '-'

/-- Model of the regular expression match on cli.ts line 209: search the
text for the literal backslash-c-space, then capture the maximal nonempty
run of identifier characters after it; on failure keep searching further
to the right, as the JavaScript regex engine does. -/
def matchConnect : List Char → Option String
  | [] => none
  | c :: rest =>
    if "\\c ".data.isPrefixOf (c :: rest) then
      let run := ((c :: rest).drop 3).takeWhile isIdChar
      if run = [] then matchConnect rest else some (String.mk run)
    else matchConnect rest

/-- Commands, the classification of one accumulated input text. The
variants follow the dispatch chain of cli.ts: the quit test on line 180
and the if chain of onLine on lines 208, 224, 229, 247, 266 and 267, with
NotExecuted for the fall-through on line 280. -/
inductive Command where
  | Quit
  | ConnectTo (name : Option String)
  | ListDatabases
  | ListTablesWithCounts
  | DescribeTable (name : String)
  | ListTables
  | EvalKnex (text : List Char)
  | RawQuery (sql : List Char)
  | NotExecuted
deriving DecidableEq, Repr

/-- Classification of an accumulated input text, the exact test order of
src/cli.ts: quit (line 180, tested in the question callback before onLine
runs), then inside onLine: backslash-c (line 208), backslash-l (line 224),
backslash-d-plus (line 229), backslash-d (line 247), text ending in a
semicolon (line 266) with the knex sub-case (line 267), and otherwise the
not-executed fall-through (line 280). -/
def classify (t : List Char) : Command :=
  if "\\q".data.isPrefixOf t then .Quit
  else if "\\c".data.isPrefixOf t then .ConnectTo (matchConnect t)
  else if "\\l".data.isPrefixOf t then .ListDatabases
  else if "\\d+".data.isPrefixOf t then .ListTablesWithCounts
  else if "\\d".data.isPrefixOf t then
    let tableName := trimL (replaceFirst ";".data [] (replaceFirst "\\d".data [] t))
    if tableName = [] then .ListTables else .DescribeTable (String.mk tableName)
  else if ";".data.isSuffixOf t then
    if "knex".data.isPrefixOf t then .EvalKnex t else .RawQuery t
  else .NotExecuted

/-- Values carried in query result rows; the pg client delivers strings
or numbers, which is all the model needs. -/
inductive Value where
  | nat (n : Nat)
  | str (s : String)
deriving DecidableEq, Repr

/-- One result row: a record mapping column names to values. -/
abbrev Row := List (String × Value)

/-- Result of Connection.query, following the collaborator interface of
the pg client: rows, rowCount and field metadata. -/
structure QueryResult where
  rows : List Row
  rowCount : Nat
  fields : List String
deriving DecidableEq, Repr

/-- An error raised by a collaborator (server error, network failure, or
a JavaScript runtime error) and caught at the onLine catch boundary. -/
structure PgError where
  message : String
deriving DecidableEq, Repr

/-- Connection parameters handed to new pg.Client on cli.ts line 213. -/
structure ConnParams where
  database : String
  user : String
  password : String
  host : String
  port : Nat
deriving DecidableEq, Repr

/-- A table as returned by the scanPGTableSchema collaborator, carrying
its name and the text that tableToString renders for it (both external
to the repository, cli.ts lines 250 and 257). -/
structure Table where
  name : String
  schemaText : String
deriving DecidableEq, Repr

/-- Environment of external collaborators: query on the client connected
to a database, pg.Client connect, schema scan through the knex handle of
a database, and the eval of knex expressions (cli.ts line 269). -/
structure Env where
  query : String → List Char → Except PgError QueryResult
  connect : ConnParams → Except PgError Unit
  scanTables : String → Except PgError (List Table)
  evalKnex : String → List Char → Except PgError (List Row)

/-- Rendered terminal output: showOutput of a string (cli.ts line 195),
the tablename and count object of the backslash-d-plus loop (line 242),
showRows with the printed row count (lines 200 to 204), and the error
record printed by the catch block (lines 283 to 286). -/
inductive Output where
  | msg (s : String)
  | tableCount (tablename : Option Value) (count : Option Value)
  | rows (rs : List Row) (shown : Nat)
  | err (query : String) (e : PgError)
deriving DecidableEq, Repr

/-- Session state of the loop in cli.ts: the accumulated input text
(line 176), the connection parameter closure variables (line 151), the
database name captured by the lazily created knex handle (lines 160 to
174, none while knex is still undefined), whether the current client
completed connect, a count of initiated client end calls, a log of every
sql text sent through client.query together with the database of the
client that received it, a log of the parameters of every client created
for a reconnect, the rendered output, and the termination flag. -/
structure SessionState where
  text : List Char
  database : String
  user : String
  password : String
  host : String
  port : Nat
  knexDb : Option String
  clientConnected : Bool
  closedCount : Nat
  sqlLog : List (String × List Char)
  connLog : List ConnParams
  out : List Output
  terminated : Bool
deriving DecidableEq, Repr

/-- Outcome of the onLine body when it does not throw: either a command
was executed, or the fall-through on cli.ts line 280 returned the
not-executed marker (leaving the accumulated text in place). -/
inductive Outcome where
  | executed
  | notExecuted
deriving DecidableEq, Repr

/-- Conversion used when a row value is interpolated into a template
literal, as in the count query of cli.ts line 239; a missing column
renders as undefined, the way JavaScript stringifies it. -/
def interpValue : Option Value → String
  | none => "undefined"
  | some (.nat n) => toString n
  | some (.str s) => s

/-- Conversion used by Array.join on cli.ts line 157, which renders a
missing value as the empty string. -/
def joinValue : Option Value → String
  | none => ""
  | some (.nat n) => toString n
  | some (.str s) => s

/-- Single-quote character, used to spell the SQL literals of cli.ts
without apostrophes in this file. -/
def sqChar : Char := Char.ofNat 39

/-- Catalog query of the backslash-l branch, cli.ts line 225. -/
def listDatabasesSql : List Char := "select datname from pg_database".data

/-- Catalog query of the backslash-d-plus branch, cli.ts lines 231 to
235 (a template literal with leading and trailing newline). -/
def listTablesPlusSql : List Char :=
  "\nselect tablename\nfrom pg_tables\nwhere pg_tables.schemaname = ".data
    ++ [sqChar] ++ "public".data ++ [sqChar] ++ "\n".data

/-- Catalog query of the bare backslash-d branch, cli.ts line 260. -/
def listTablesSql : List Char :=
  "select tablename from pg_tables where schemaname = ".data
    ++ [sqChar] ++ "public".data ++ [sqChar]

/-- Count query of the backslash-d-plus branch, cli.ts lines 238 to 240,
with the table name interpolated unescaped into the text. -/
def countSql (tn : String) : List Char :=
  "\nselect count(*) as count from \"".data ++ tn.data ++ "\"\n".data

/-- Confirmation message of the backslash-c branch, cli.ts lines 218 to
220. Note the absence of a trailing period in the source template. -/
def connectedMsg (db user : String) : String :=
  "You are now connected to database \"" ++ db ++ "\" as user \"" ++ user ++ "\""

/-- Not-found message of the backslash-d branch, cli.ts line 253. -/
def notFoundMsg (name : String) : String :=
  "Did not find any relation named \"" ++ name ++ "\"."

/-- Model of the backslash-c reconnect block, cli.ts lines 210 to 217:
when a database name was parsed, initiate end on the current client,
assign the database closure variable, create a client with the new
database and the unchanged user, password, host and port, install it as
the current client (not yet connected), and await connect, which may
throw. When no name was parsed nothing happens. -/
def execConnect (env : Env) (s : SessionState) :
    Option String → Except (SessionState × PgError) SessionState
  | none => .ok s
  | some db =>
    let p : ConnParams := ⟨db, s.user, s.password, s.host, s.port⟩
    let s1 := { s with closedCount := s.closedCount + 1, database := db,
                       clientConnected := false, connLog := s.connLog ++ [p] }
    match env.connect p with
    | .error e => .error (s1, e)
    | .ok _ => .ok { s1 with clientConnected := true }

/-- Model of querySingleColumn, cli.ts lines 153 to 158: run the query on
the current client, take the name of the first field (a missing field
list raises a JavaScript error, caught by the onLine catch), and print
the values of that column joined with comma and space. -/
def querySingleColumn (env : Env) (s : SessionState) (sql : List Char) :
    Except (SessionState × PgError) SessionState :=
  let s1 := { s with sqlLog := s.sqlLog ++ [(s.database, sql)] }
  match env.query s1.database sql with
  | .error e => .error (s1, e)
  | .ok res =>
    match res.fields with
    | [] => .error (s1, ⟨"TypeError: reading name of undefined"⟩)
    | f :: _ =>
      let line := String.intercalate ", " (res.rows.map fun r => joinValue (r.lookup f))
      .ok { s1 with out := s1.out ++ [.msg line] }

/-- Model of the per-table count loop of the backslash-d-plus branch,
cli.ts lines 237 to 243: for each row of the table listing, interpolate
the tablename into the count query, run it on the current client, read
the count of the first result row (a missing first row raises a
JavaScript error), and print the tablename and count object. -/
def countLoop (env : Env) : List Row → SessionState → Except (SessionState × PgError) SessionState
  | [], s => .ok s
  | row :: rest, s =>
    let tn := interpValue (row.lookup "tablename")
    let s1 := { s with sqlLog := s.sqlLog ++ [(s.database, countSql tn)] }
    match env.query s1.database (countSql tn) with
    | .error e => .error (s1, e)
    | .ok res =>
      match res.rows with
      | [] => .error (s1, ⟨"TypeError: reading count of undefined"⟩)
      | r0 :: _ =>
        countLoop env rest
          { s1 with out := s1.out ++ [.tableCount (row.lookup "tablename") (r0.lookup "count")] }

/-- Model of the try body of onLine, cli.ts lines 207 to 280, dispatching
on the classification of the accumulated text. A thrown error carries the
state reached at the throw point. The Quit case is unreachable from the
loop, which tests for quit on line 180 before calling onLine; it is
modelled as the not-executed fall-through. -/
def onLineTry (env : Env) (s : SessionState) :
    Except (SessionState × PgError) (SessionState × Outcome) :=
  match classify s.text with
  | .Quit => .ok (s, .notExecuted)
  | .ConnectTo odb =>
    match execConnect env s odb with
    | .error se => .error se
    | .ok s1 =>
      .ok ({ s1 with out := s1.out ++ [.msg (connectedMsg s1.database s1.user)],
                     text := [] }, .executed)
  | .ListDatabases =>
    match querySingleColumn env s listDatabasesSql with
    | .error se => .error se
    | .ok s1 => .ok ({ s1 with text := [] }, .executed)
  | .ListTablesWithCounts =>
    let s1 := { s with sqlLog := s.sqlLog ++ [(s.database, listTablesPlusSql)] }
    match env.query s1.database listTablesPlusSql with
    | .error e => .error (s1, e)
    | .ok res =>
      match countLoop env res.rows s1 with
      | .error se => .error se
      | .ok s2 => .ok ({ s2 with text := [] }, .executed)
  | .DescribeTable name =>
    let kdb := s.knexDb.getD s.database
    let s1 := { s with knexDb := some kdb }
    match env.scanTables kdb with
    | .error e => .error (s1, e)
    | .ok tables =>
      match tables.find? (fun tb => tb.name == name) with
      | none =>
        .ok ({ s1 with out := s1.out ++ [.msg (notFoundMsg name)], text := [] }, .executed)
      | some tb =>
        .ok ({ s1 with out := s1.out ++ [.msg (String.mk (trimL tb.schemaText.data))],
                       text := [] }, .executed)
  | .ListTables =>
    match querySingleColumn env s listTablesSql with
    | .error se => .error se
    | .ok s1 => .ok ({ s1 with text := [] }, .executed)
  | .EvalKnex t =>
    let kdb := s.knexDb.getD s.database
    let s1 := { s with knexDb := some kdb }
    match env.evalKnex kdb t with
    | .error e => .error (s1, e)
    | .ok rows =>
      .ok ({ s1 with out := s1.out ++ [.rows rows rows.length], text := [] }, .executed)
  | .RawQuery t =>
    let s1 := { s with sqlLog := s.sqlLog ++ [(s.database, t)] }
    match env.query s1.database t with
    | .error e => .error (s1, e)
    | .ok res =>
      .ok ({ s1 with out := s1.out ++ [.rows res.rows res.rows.length], text := [] }, .executed)
  | .NotExecuted => .ok (s, .notExecuted)

/-- Model of onLine including its catch block, cli.ts lines 281 to 288:
a thrown error is printed as a record holding the offending input text
and the error, and the accumulated text is cleared. -/
def runOnLine (env : Env) (s : SessionState) : SessionState :=
  match onLineTry env s with
  | .ok (s1, _) => s1
  | .error (s1, e) =>
    { s1 with text := [], out := s1.out ++ [.err (String.mk s1.text) e] }

/-- Model of the question callback of the loop, cli.ts lines 177 to 188,
processing one received input line to completion: append the line to the
accumulated text with a newline and trim (line 179); if the result starts
with backslash-q run end, which closes the input, initiates end on the
client and destroys the knex handle (lines 180 and 291 to 295); otherwise
run onLine. A terminated session ignores further lines, since end closed
the readline interface. -/
def handleLine (env : Env) (s : SessionState) (line : String) : SessionState :=
  if s.terminated then s else
  let t := trimL (s.text ++ '\n' :: line.data)
  let s1 := { s with text := t }
  if classify t = Command.Quit then
    { s1 with terminated := true, closedCount := s1.closedCount + 1 }
  else runOnLine env s1

/-- Initial session state after a successful initial connection,
cli.ts lines 149 to 151. -/
def initState (db user password host : String) (port : Nat) : SessionState :=
  ⟨[], db, user, password, host, port, none, true, 0, [], [], [], false⟩

/-- A whole session: fold the line handler over the input lines, in
order, starting from the state after the initial connection. -/
def runSession (env : Env) (s : SessionState) (lines : List String) : SessionState :=
  lines.foldl (handleLine env) s

/-- A benign environment used by concrete evaluations: the connect call
succeeds and everything else reports an error when reached. -/
def env0 : Env where
  query := fun _ _ => .error ⟨"no server"⟩
  connect := fun _ => .ok ()
  scanTables := fun _ => .error ⟨"no server"⟩
  evalKnex := fun _ _ => .error ⟨"no server"⟩

/-- Event loop state for the in-flight analysis of the loop on cli.ts
lines 177 to 189. The callback given to io.question appends the received
line to the shared text variable and calls onLine without awaiting it,
then immediately re-arms the question; onLine suspends at its first
awaited operation and resumes when that operation resolves. inFlight
lists the accumulated texts of the onLine invocations that have been
dispatched and have not yet completed. -/
structure EvState where
  text : List Char
  inFlight : List (List Char)
  terminated : Bool
deriving DecidableEq, Repr

/-- Events driving the loop: arrival of one input line (the question
callback fires, runs synchronously and drains microtasks up to the first
truly pending await of onLine), or completion of the oldest in-flight
awaited operation, after which that onLine invocation runs to the end of
its branch and clears the shared text variable. -/
inductive EvEvent where
  | line (l : String)
  | complete
deriving DecidableEq, Repr

/-- One step of the event loop model. A line event follows cli.ts lines
178 to 187: accumulate and trim, terminate on a leading backslash-q,
otherwise dispatch onLine; branches with no awaited operation (a
backslash-c without a parsed name, and the not-executed fall-through)
finish synchronously, every other branch suspends and joins inFlight
with the shared text left in place, since each branch clears the text
only after its awaits (for example cli.ts lines 272 to 276). A complete
event resumes the oldest in-flight invocation, which finishes its branch
and assigns the empty string to the shared text variable. -/
def evStep (s : EvState) (e : EvEvent) : EvState :=
  match e with
  | .line l =>
    if s.terminated then s else
    let t := trimL (s.text ++ '\n' :: l.data)
    match classify t with
    | .Quit => { s with text := t, terminated := true }
    | .NotExecuted => { s with text := t }
    | .ConnectTo none => { s with text := [] }
    | _ => { s with text := t, inFlight := s.inFlight ++ [t] }
  | .complete =>
    match s.inFlight with
    | [] => s
    | _ :: rest => { s with inFlight := rest, text := [] }

/-- Event loop state right after the initial connection. -/
def evInit : EvState := ⟨[], [], false⟩

/-- Folding the event step over a sequence of events. -/
def evRun (s : EvState) (es : List EvEvent) : EvState := es.foldl evStep s

/-- A line event is quiescent when no command is in flight at the moment
the line arrives; complete events are always allowed. -/
def lineQuiescent (s : EvState) : EvEvent → Bool
  | .line _ => s.inFlight.isEmpty
  | .complete => true

/-- Holds when every line event of the sequence arrives in a state with
no command in flight. -/
def quiesOK : EvState → List EvEvent → Bool
  | _, [] => true
  | s, e :: es => lineQuiescent s e && quiesOK (evStep s e) es

theorem evStep_inFlight_le (s : EvState) (e : EvEvent)
    (h1 : s.inFlight.length ≤ 1) (h2 : lineQuiescent s e = true) :
    (evStep s e).inFlight.length ≤ 1 := by
  cases e with
  | line l =>
    have hempty : s.inFlight = [] := by
      simpa [lineQuiescent, List.isEmpty_iff] using h2
    unfold evStep
    by_cases hterm : s.terminated
    · simp [hterm, h1]
    · simp only [hterm]
      split
      · simp [hempty]
      · split <;> simp [hempty]
  | complete =>
    unfold evStep
    cases hfl : s.inFlight with
    | nil => simp [hfl]
    | cons a rest =>
      rw [hfl] at h1
      simp only [List.length_cons] at h1
      simp [hfl]
      omega

theorem quiesOK_append (es1 es2 : List EvEvent) :
    ∀ s, quiesOK s (es1 ++ es2) = true → quiesOK s es1 = true := by
  induction es1 with
  | nil => intro s _; rfl
  | cons e es ih =>
    intro s h
    simp only [List.cons_append, quiesOK, Bool.and_eq_true] at h ⊢
    exact ⟨h.1, ih _ h.2⟩

theorem evRun_quies (es : List EvEvent) :
    ∀ s, s.inFlight.length ≤ 1 → quiesOK s es = true →
      (evRun s es).inFlight.length ≤ 1 := by
  induction es with
  | nil => intro s h _; exact h
  | cons e es ih =>
    intro s h hq
    simp only [quiesOK, Bool.and_eq_true] at hq
    exact ih (evStep s e) (evStep_inFlight_le s e h hq.1) hq.2

theorem two_prefix_exists (a b : Char) {t : List Char}
    (h : [a, b].isPrefixOf t = true) : ∃ r, t = a :: b :: r := by
  match t with
  | [] => simp [List.isPrefixOf] at h
  | [x] => simp [List.isPrefixOf] at h
  | x :: y :: r =>
    simp [List.isPrefixOf] at h
    exact ⟨r, by rw [h.1, h.2]⟩

theorem isPrefixOf_mono {p q t : List Char} (hpq : p <+: q)
    (h : q.isPrefixOf t = true) : p.isPrefixOf t = true := by
  rw [List.isPrefixOf_iff_prefix] at h ⊢
  exact hpq.trans h

theorem cPrefix_notQ {t : List Char} (h : "\\c".data.isPrefixOf t = true) :
    "\\q".data.isPrefixOf t = false := by
  obtain ⟨r, rfl⟩ := two_prefix_exists '\\' 'c' h
  simp [List.isPrefixOf]

theorem dPlus_false {t : List Char} (h : "\\d".data.isPrefixOf t = false) :
    "\\d+".data.isPrefixOf t = false := by
  cases hx : "\\d+".data.isPrefixOf t with
  | false => rfl
  | true =>
    have hsub : "\\d".data <+: "\\d+".data := ⟨['+'], by decide⟩
    exact absurd (isPrefixOf_mono hsub hx) (by simp [h])

theorem classify_connect {t : List Char} (h : "\\c".data.isPrefixOf t = true) :
    classify t = Command.ConnectTo (matchConnect t) := by
  simp [classify, cPrefix_notQ h, h]

theorem classify_raw {t : List Char}
    (hq : "\\q".data.isPrefixOf t = false)
    (hc : "\\c".data.isPrefixOf t = false)
    (hl : "\\l".data.isPrefixOf t = false)
    (hd : "\\d".data.isPrefixOf t = false)
    (hsemi : ";".data.isSuffixOf t = true)
    (hknex : "knex".data.isPrefixOf t = false) :
    classify t = Command.RawQuery t := by
  simp [classify, hq, hc, hl, hd, dPlus_false hd, hsemi, hknex]

theorem classify_ne_quit {t : List Char} (hx : "\\q".data.isPrefixOf t = false) :
    classify t ≠ Command.Quit := by
  unfold classify
  rw [hx]
  simp only [Bool.false_eq_true, if_false]
  repeat' split
  all_goals simp

theorem classify_quit {t : List Char} (hx : "\\q".data.isPrefixOf t = true) :
    classify t = Command.Quit := by
  simp [classify, hx]

theorem execConnect_err {env : Env} {s : SessionState} {odb : Option String}
    {s1 : SessionState} {e : PgError}
    (h : execConnect env s odb = .error (s1, e)) :
    s1.terminated = s.terminated ∧ s1.text = s.text := by
  unfold execConnect at h
  dsimp only at h
  split at h
  · simp at h
  · split at h
    · simp only [Except.error.injEq, Prod.mk.injEq] at h
      obtain ⟨h1, h2⟩ := h
      subst h1
      simp
    · simp at h

theorem execConnect_ok {env : Env} {s : SessionState} {odb : Option String}
    {s1 : SessionState}
    (h : execConnect env s odb = .ok s1) :
    s1.terminated = s.terminated := by
  unfold execConnect at h
  dsimp only at h
  split at h
  · simp only [Except.ok.injEq] at h
    subst h; rfl
  · split at h
    · simp at h
    · simp only [Except.ok.injEq] at h
      subst h
      simp

theorem querySingleColumn_err {env : Env} {s : SessionState} {sql : List Char}
    {s1 : SessionState} {e : PgError}
    (h : querySingleColumn env s sql = .error (s1, e)) :
    s1.terminated = s.terminated ∧ s1.text = s.text := by
  unfold querySingleColumn at h
  dsimp only at h
  split at h
  · simp only [Except.error.injEq, Prod.mk.injEq] at h
    obtain ⟨h1, h2⟩ := h
    subst h1
    simp
  · split at h
    · simp only [Except.error.injEq, Prod.mk.injEq] at h
      obtain ⟨h1, h2⟩ := h
      subst h1
      simp
    · simp at h

theorem querySingleColumn_ok {env : Env} {s : SessionState} {sql : List Char}
    {s1 : SessionState}
    (h : querySingleColumn env s sql = .ok s1) :
    s1.terminated = s.terminated := by
  unfold querySingleColumn at h
  dsimp only at h
  split at h
  · simp at h
  · split at h
    · simp at h
    · simp only [Except.ok.injEq] at h
      subst h
      simp

theorem countLoop_err {env : Env} :
    ∀ {rows : List Row} {s s1 : SessionState} {e : PgError},
      countLoop env rows s = .error (s1, e) →
      s1.terminated = s.terminated ∧ s1.text = s.text := by
  intro rows
  induction rows with
  | nil => intro s s1 e h; simp [countLoop] at h
  | cons row rest ih =>
    intro s s1 e h
    unfold countLoop at h
    dsimp only at h
    split at h
    · simp only [Except.error.injEq, Prod.mk.injEq] at h
      obtain ⟨h1, h2⟩ := h
      subst h1
      simp
    · split at h
      · simp only [Except.error.injEq, Prod.mk.injEq] at h
        obtain ⟨h1, h2⟩ := h
        subst h1
        simp
      · have h2 := ih h
        simpa using h2

theorem countLoop_ok {env : Env} :
    ∀ {rows : List Row} {s s1 : SessionState},
      countLoop env rows s = .ok s1 →
      s1.terminated = s.terminated := by
  intro rows
  induction rows with
  | nil =>
    intro s s1 h
    simp only [countLoop, Except.ok.injEq] at h
    subst h; rfl
  | cons row rest ih =>
    intro s s1 h
    unfold countLoop at h
    dsimp only at h
    split at h
    · simp at h
    · split at h
      · simp at h
      · have h2 := ih h
        simpa using h2

theorem onLineTry_err {env : Env} {s s1 : SessionState} {e : PgError}
    (h : onLineTry env s = .error (s1, e)) :
    s1.terminated = s.terminated ∧ s1.text = s.text := by
  unfold onLineTry at h
  dsimp only at h
  split at h
  · simp at h
  · -- ConnectTo
    split at h
    · rename_i se hec
      simp only [Except.error.injEq] at h
      subst h
      exact execConnect_err hec
    · simp at h
  · -- ListDatabases
    split at h
    · rename_i se hqc
      simp only [Except.error.injEq] at h
      subst h
      exact querySingleColumn_err hqc
    · simp at h
  · -- ListTablesWithCounts
    split at h
    · simp only [Except.error.injEq, Prod.mk.injEq] at h
      obtain ⟨h1, h2⟩ := h
      subst h1
      simp
    · split at h
      · rename_i se hcl
        simp only [Except.error.injEq] at h
        subst h
        have := countLoop_err hcl
        simpa using this
      · simp at h
  · -- DescribeTable
    split at h
    · simp only [Except.error.injEq, Prod.mk.injEq] at h
      obtain ⟨h1, h2⟩ := h
      subst h1
      simp
    · split at h
      · simp at h
      · simp at h
  · -- ListTables
    split at h
    · rename_i se hqc
      simp only [Except.error.injEq] at h
      subst h
      exact querySingleColumn_err hqc
    · simp at h
  · -- EvalKnex
    split at h
    · simp only [Except.error.injEq, Prod.mk.injEq] at h
      obtain ⟨h1, h2⟩ := h
      subst h1
      simp
    · simp at h
  · -- RawQuery
    split at h
    · simp only [Except.error.injEq, Prod.mk.injEq] at h
      obtain ⟨h1, h2⟩ := h
      subst h1
      simp
    · simp at h
  · simp at h

theorem onLineTry_ok {env : Env} {s s1 : SessionState} {o : Outcome}
    (h : onLineTry env s = .ok (s1, o)) :
    s1.terminated = s.terminated := by
  unfold onLineTry at h
  dsimp only at h
  split at h
  · simp only [Except.ok.injEq, Prod.mk.injEq] at h
    obtain ⟨h1, h2⟩ := h
    subst h1; rfl
  · -- ConnectTo
    split at h
    · simp at h
    · rename_i s2 hec
      simp only [Except.ok.injEq, Prod.mk.injEq] at h
      obtain ⟨h1, h2⟩ := h
      subst h1
      simpa using execConnect_ok hec
  · -- ListDatabases
    split at h
    · simp at h
    · rename_i s2 hqc
      simp only [Except.ok.injEq, Prod.mk.injEq] at h
      obtain ⟨h1, h2⟩ := h
      subst h1
      simpa using querySingleColumn_ok hqc
  · -- ListTablesWithCounts
    split at h
    · simp at h
    · split at h
      · simp at h
      · rename_i s2 hcl
        simp only [Except.ok.injEq, Prod.mk.injEq] at h
        obtain ⟨h1, h2⟩ := h
        subst h1
        have := countLoop_ok hcl
        simpa using this
  · -- DescribeTable
    split at h
    · simp at h
    · split at h
      · simp only [Except.ok.injEq, Prod.mk.injEq] at h
        obtain ⟨h1, h2⟩ := h
        subst h1
        simp
      · simp only [Except.ok.injEq, Prod.mk.injEq] at h
        obtain ⟨h1, h2⟩ := h
        subst h1
        simp
  · -- ListTables
    split at h
    · simp at h
    · rename_i s2 hqc
      simp only [Except.ok.injEq, Prod.mk.injEq] at h
      obtain ⟨h1, h2⟩ := h
      subst h1
      simpa using querySingleColumn_ok hqc
  · -- EvalKnex
    split at h
    · simp at h
    · simp only [Except.ok.injEq, Prod.mk.injEq] at h
      obtain ⟨h1, h2⟩ := h
      subst h1
      simp
  · -- RawQuery
    split at h
    · simp at h
    · simp only [Except.ok.injEq, Prod.mk.injEq] at h
      obtain ⟨h1, h2⟩ := h
      subst h1
      simp
  · simp only [Except.ok.injEq, Prod.mk.injEq] at h
    obtain ⟨h1, h2⟩ := h
    subst h1; rfl

theorem runOnLine_terminated (env : Env) (s : SessionState) :
    (runOnLine env s).terminated = s.terminated := by
  unfold runOnLine
  split
  · rename_i s1 o heq
    exact onLineTry_ok heq
  · rename_i s1 e heq
    simpa using (onLineTry_err heq).1

/-- The quit test of cli.ts line 180 is decided by whether the trimmed
accumulation starts with backslash-q; a line received in a live session
terminates it exactly in that case, because runOnLine never changes the
termination flag. -/
theorem handleLine_terminated_iff (env : Env) (s : SessionState) (line : String)
    (hterm : s.terminated = false) :
    ((handleLine env s line).terminated = true ↔
      "\\q".data.isPrefixOf (trimL (s.text ++ '\n' :: line.data)) = true) := by
  unfold handleLine
  rw [hterm]
  simp only [Bool.false_eq_true, if_false]
  constructor
  · intro h
    by_contra hx
    rw [Bool.not_eq_true] at hx
    rw [if_neg (by simpa using classify_ne_quit hx)] at h
    rw [runOnLine_terminated] at h
    simp [hterm] at h
  · intro h
    rw [if_pos (by simpa using classify_quit h)]

/-- Reduction of the onLine body on the backslash-c branch, cli.ts lines
208 to 222, when a database name is parsed and connect succeeds. -/
theorem onLineTry_connect_ok (env : Env) (s : SessionState) (d : String)
    (hpre : "\\c".data.isPrefixOf s.text = true)
    (hmatch : matchConnect s.text = some d)
    (hok : env.connect ⟨d, s.user, s.password, s.host, s.port⟩ = .ok ()) :
    onLineTry env s =
      .ok ({ s with
              text := [],
              database := d, clientConnected := true,
              closedCount := s.closedCount + 1,
              connLog := s.connLog ++ [⟨d, s.user, s.password, s.host, s.port⟩],
              out := s.out ++ [.msg (connectedMsg d s.user)] }, .executed) := by
  unfold onLineTry
  rw [classify_connect hpre, hmatch]
  dsimp only
  unfold execConnect
  dsimp only
  rw [hok]

/-- Reduction of the onLine body on the backslash-c branch when a
database name is parsed and connect throws: the state reached at the
throw point already holds the new database name, the initiated close of
the previous client and the not-yet-connected replacement client. -/
theorem onLineTry_connect_err (env : Env) (s : SessionState) (d : String) (e : PgError)
    (hpre : "\\c".data.isPrefixOf s.text = true)
    (hmatch : matchConnect s.text = some d)
    (hfail : env.connect ⟨d, s.user, s.password, s.host, s.port⟩ = .error e) :
    onLineTry env s =
      .error ({ s with
                 database := d, clientConnected := false,
                 closedCount := s.closedCount + 1,
                 connLog := s.connLog ++ [⟨d, s.user, s.password, s.host, s.port⟩] }, e) := by
  unfold onLineTry
  rw [classify_connect hpre, hmatch]
  dsimp only
  unfold execConnect
  dsimp only
  rw [hfail]

/-- Reduction of the onLine body on the raw query branch, cli.ts lines
266 and 271 to 277, when the server answers: the accumulated text is sent
verbatim to the client of the current database, the rows are shown with
their length as the printed count, and the text is cleared. -/
theorem onLineTry_raw_ok (env : Env) (s : SessionState) (res : QueryResult)
    (hq : "\\q".data.isPrefixOf s.text = false)
    (hc : "\\c".data.isPrefixOf s.text = false)
    (hl : "\\l".data.isPrefixOf s.text = false)
    (hd : "\\d".data.isPrefixOf s.text = false)
    (hsemi : ";".data.isSuffixOf s.text = true)
    (hknex : "knex".data.isPrefixOf s.text = false)
    (hok : env.query s.database s.text = .ok res) :
    onLineTry env s =
      .ok ({ s with
              text := [],
              sqlLog := s.sqlLog ++ [(s.database, s.text)],
              out := s.out ++ [.rows res.rows res.rows.length] }, .executed) := by
  unfold onLineTry
  rw [classify_raw hq hc hl hd hsemi hknex]
  dsimp only
  rw [hok]

/-- When the try body succeeds, onLine returns its resulting state. -/
theorem runOnLine_of_ok {env : Env} {s s1 : SessionState} {o : Outcome}
    (h : onLineTry env s = .ok (s1, o)) : runOnLine env s = s1 := by
  unfold runOnLine
  rw [h]

/-- When the try body throws, the catch block of onLine prints the error
with the offending text and clears the accumulated text. -/
theorem runOnLine_of_err {env : Env} {s s1 : SessionState} {e : PgError}
    (h : onLineTry env s = .error (s1, e)) :
    runOnLine env s = { s1 with text := [], out := s1.out ++ [.err (String.mk s1.text) e] } := by
  unfold runOnLine
  rw [h]

/-- Line handling when the accumulated text classifies as a backslash-c
command with a parsed name and connect succeeds. -/
theorem handleLine_connect_ok (env : Env) (s : SessionState) (line : String)
    (t : List Char) (d : String)
    (ht : trimL (s.text ++ '\n' :: line.data) = t)
    (hterm : s.terminated = false)
    (hpre : "\\c".data.isPrefixOf t = true)
    (hmatch : matchConnect t = some d)
    (hok : env.connect ⟨d, s.user, s.password, s.host, s.port⟩ = .ok ()) :
    handleLine env s line =
      { s with
          text := [],
          database := d, clientConnected := true,
          closedCount := s.closedCount + 1,
          connLog := s.connLog ++ [⟨d, s.user, s.password, s.host, s.port⟩],
          out := s.out ++ [.msg (connectedMsg d s.user)] } := by
  unfold handleLine
  rw [ht]
  rw [if_neg (by simp [hterm])]
  rw [if_neg (by simpa using classify_ne_quit (cPrefix_notQ hpre))]
  exact runOnLine_of_ok (onLineTry_connect_ok env { s with text := t } d
    (by simpa using hpre) (by simpa using hmatch) (by simpa using hok))

/-- Line handling when the accumulated text classifies as a backslash-c
command with a parsed name and connect fails: the error is caught by the
catch of onLine and printed with the offending input, the text is
cleared, but the database name and the initiated close of the previous
client are not rolled back, and the replacement client never connected. -/
theorem handleLine_connect_err (env : Env) (s : SessionState) (line : String)
    (t : List Char) (d : String) (e : PgError)
    (ht : trimL (s.text ++ '\n' :: line.data) = t)
    (hterm : s.terminated = false)
    (hpre : "\\c".data.isPrefixOf t = true)
    (hmatch : matchConnect t = some d)
    (hfail : env.connect ⟨d, s.user, s.password, s.host, s.port⟩ = .error e) :
    handleLine env s line =
      { s with
          text := [],
          database := d, clientConnected := false,
          closedCount := s.closedCount + 1,
          connLog := s.connLog ++ [⟨d, s.user, s.password, s.host, s.port⟩],
          out := s.out ++ [.err (String.mk t) e] } := by
  unfold handleLine
  rw [ht]
  rw [if_neg (by simp [hterm])]
  rw [if_neg (by simpa using classify_ne_quit (cPrefix_notQ hpre))]
  exact runOnLine_of_err (onLineTry_connect_err env { s with text := t } d e
    (by simpa using hpre) (by simpa using hmatch) (by simpa using hfail))

/-- C3 (amended): every accumulated input that matches none of the
meta-command tests, does NOT start with knex, and ends with a semicolon
is sent verbatim as sql to the client of the current database, and the
returned rows are rendered together with their number as the printed
count. The source adds two differences to the claim as stated: an input
starting with knex is routed to eval instead of the connection (cli.ts
lines 267 to 270, see the counterexample), and the printed count is the
length of the returned row list, cli.ts line 203, not the rowCount field
of the result. -/
theorem c3_raw_query_verbatim (env : Env) (s : SessionState) (line : String)
    (t : List Char) (res : QueryResult)
    (ht : trimL (s.text ++ '\n' :: line.data) = t)
    (hterm : s.terminated = false)
    (hq : "\\q".data.isPrefixOf t = false)
    (hc : "\\c".data.isPrefixOf t = false)
    (hl : "\\l".data.isPrefixOf t = false)
    (hd : "\\d".data.isPrefixOf t = false)
    (hsemi : ";".data.isSuffixOf t = true)
    (hknex : "knex".data.isPrefixOf t = false)
    (hok : env.query s.database t = .ok res) :
    handleLine env s line =
      { s with
          text := [],
          sqlLog := s.sqlLog ++ [(s.database, t)],
          out := s.out ++ [.rows res.rows res.rows.length] } := by
  unfold handleLine
  rw [ht]
  rw [if_neg (by simp [hterm])]
  rw [if_neg (by simpa using classify_ne_quit hq)]
  exact runOnLine_of_ok (onLineTry_raw_ok env { s with text := t } res
    (by simpa using hq) (by simpa using hc) (by simpa using hl)
    (by simpa using hd) (by simpa using hsemi) (by simpa using hknex)
    (by simpa using hok))

example :
    (runSession env0 (initState "db" "u" "p" "h" 5432) ["select 1"]).text
      = "select 1".data := by decide
example :
    (runSession env0 (initState "db" "u" "p" "h" 5432) ["select 1", "\\q"]).terminated
      = false := by decide
example :
    (runSession env0 (initState "db" "u" "p" "h" 5432) ["\\q"]).terminated
      = true := by decide
example :
    (runSession env0 (initState "db" "u" "p" "h" 5432) ["\\c app"]).out
      = [Output.msg (connectedMsg "app" "u")] := by decide
example :
    (runSession env0 (initState "db" "u" "p" "h" 5432) ["\\c app"]).database
      = "app" := by decide

example : classify "\\q".data = Command.Quit := by decide
example : classify "\\c mydb".data = Command.ConnectTo (some "mydb") := by decide
example : classify "\\c".data = Command.ConnectTo none := by decide
example : classify "\\l".data = Command.ListDatabases := by decide
example : classify "\\d+".data = Command.ListTablesWithCounts := by decide
example : classify "\\d users".data = Command.DescribeTable "users" := by decide
example : classify "\\d users;".data = Command.DescribeTable "users" := by decide
example : classify "\\d".data = Command.ListTables := by decide
example : classify "select 1;".data = Command.RawQuery "select 1;".data := by decide
example : classify "select 1".data = Command.NotExecuted := by decide
example : classify "".data = Command.NotExecuted := by decide
example : classify "knex(123);".data = Command.EvalKnex "knex(123);".data := by decide
example : matchConnect "\\c mydb;".data = some "mydb" := by decide
example : matchConnect "\\connect foo".data = none := by decide
example : trimL "  ab c  ".data = "ab c".data := by decide
example : replaceFirst "\\d".data [] "\\d a;b;".data = " a;b;".data := by decide

/-- Environment for the C3 counterexample: the connection and the knex
eval return distinguishable results. -/
def envC3 : Env where
  query := fun _ _ => .ok ⟨[[("source", Value.str "client")]], 1, ["source"]⟩
  connect := fun _ => .ok ()
  scanTables := fun _ => .ok []
  evalKnex := fun _ _ => .ok [[("source", Value.str "eval")]]

/-- C3 counterexample: the input knex(42); ends with a semicolon and
matches none of the meta-command rules of the specification, yet it is
not sent to the connection at all: nothing is logged against the client,
and the rendered rows come from the eval collaborator. -/
theorem c3_knex_not_sent_as_sql :
    classify "knex(42);".data = Command.EvalKnex "knex(42);".data ∧
    classify "knex(42);".data ≠ Command.RawQuery "knex(42);".data ∧
    (runSession envC3 (initState "db" "u" "p" "h" 5432) ["knex(42);"]).sqlLog = [] ∧
    (runSession envC3 (initState "db" "u" "p" "h" 5432) ["knex(42);"]).out
      = [Output.rows [[("source", Value.str "eval")]] 1] := by
  decide

/-- Environment for the C3 witness: every query answers one fixed row. -/
def envW3 : Env where
  query := fun _ _ => .ok ⟨[[("a", Value.nat 1)]], 1, ["a"]⟩
  connect := fun _ => .ok ()
  scanTables := fun _ => .ok []
  evalKnex := fun _ _ => .error ⟨"not used"⟩

/-- C3 witness: the verbatim-dispatch theorem applied to select 1; in a
fresh session. -/
theorem c3_raw_query_verbatim_witness :
    handleLine envW3 (initState "db" "u" "p" "h" 5432) "select 1;" =
      { initState "db" "u" "p" "h" 5432 with
          text := [],
          sqlLog := [("db", "select 1;".data)],
          out := [Output.rows [[("a", Value.nat 1)]] 1] } := by
  have h := c3_raw_query_verbatim envW3 (initState "db" "u" "p" "h" 5432) "select 1;"
      ("select 1;".data) ⟨[[("a", Value.nat 1)]], 1, ["a"]⟩
      (by decide) rfl (by decide) (by decide) (by decide) (by decide)
      (by decide) (by decide) rfl
  simpa using h

/-- C1 (amended): along every trace of the event loop in which each
input line arrives while no command is in flight, at most one command is
in flight at every point of the trace. The loop itself does not enforce
this quiescence: as the counterexample shows, a line arriving while a
command is in flight immediately dispatches a second command. -/
theorem c1_at_most_one_in_flight (es1 es2 : List EvEvent)
    (hq : quiesOK evInit (es1 ++ es2) = true) :
    (evRun evInit es1).inFlight.length ≤ 1 :=
  evRun_quies es1 evInit (by decide) (quiesOK_append es1 es2 evInit hq)

/-- C1 witness: a quiescent two-event trace. -/
theorem c1_at_most_one_in_flight_witness :
    (evRun evInit [EvEvent.line "select 1;"]).inFlight.length ≤ 1 :=
  c1_at_most_one_in_flight [EvEvent.line "select 1;"] [EvEvent.complete] (by decide)

/-- C1 counterexample: two raw query lines arriving back to back are
both dispatched before either completes, so two commands are in flight
at once; the second dispatch even carries the first statement glued to
the second, because the shared text variable is cleared only when a
command completes. -/
theorem c1_two_in_flight :
    (evRun evInit [EvEvent.line "select 1;", EvEvent.line "select 2;"]).inFlight
      = ["select 1;".data, "select 1;\nselect 2;".data] ∧
    ¬ (evRun evInit
        [EvEvent.line "select 1;", EvEvent.line "select 2;"]).inFlight.length ≤ 1 := by
  decide

/-- C2 (amended): receiving a line terminates the session exactly when
the trimmed concatenation of the pending input and the received line
starts with backslash-q. Hence quit is honoured whenever the pending
input is empty, but a backslash-q line received after an unfinished
statement has accumulated is appended to the pending input and ignored. -/
theorem c2_quit_only_without_pending (env : Env) (s : SessionState) (line : String)
    (hterm : s.terminated = false) :
    ((handleLine env s line).terminated = true ↔
      "\\q".data.isPrefixOf (trimL (s.text ++ '\n' :: line.data)) = true) :=
  handleLine_terminated_iff env s line hterm

/-- C2 witness: backslash-q in a fresh session terminates. -/
theorem c2_quit_only_without_pending_witness :
    (handleLine env0 (initState "db" "u" "p" "h" 5432) "\\q").terminated = true :=
  (c2_quit_only_without_pending env0 (initState "db" "u" "p" "h" 5432) "\\q" rfl).mpr
    (by decide)

/-- C2 counterexample: with the unfinished statement select 1 pending, the
line backslash-q does not terminate the session, because the quit test
of cli.ts line 180 runs on the accumulated text, which no longer starts
with backslash-q. -/
theorem c2_quit_ignored_with_pending :
    (runSession env0 (initState "db" "u" "p" "h" 5432) ["select 1"]).text
        = "select 1".data ∧
    (runSession env0 (initState "db" "u" "p" "h" 5432) ["select 1", "\\q"]).terminated
        = false := by
  decide

/-- C4 (amended): for every backslash-c command with a parsed name,
whether or not the name equals the active database, on a successful
connect the executor prints exactly the status message
You are now connected to database "name" as user "user" with no
trailing period; the source template on cli.ts line 219 ends at the
closing quote of the user name. -/
theorem c4_connect_message (env : Env) (s : SessionState) (line : String)
    (t : List Char) (d : String)
    (ht : trimL (s.text ++ '\n' :: line.data) = t)
    (hterm : s.terminated = false)
    (hpre : "\\c".data.isPrefixOf t = true)
    (hmatch : matchConnect t = some d)
    (hok : env.connect ⟨d, s.user, s.password, s.host, s.port⟩ = .ok ()) :
    (handleLine env s line).out =
      s.out ++ [Output.msg ("You are now connected to database \"" ++ d
        ++ "\" as user \"" ++ s.user ++ "\"")] := by
  rw [handleLine_connect_ok env s line t d ht hterm hpre hmatch hok]
  rfl

/-- C4 witness: the message for connecting to app as user u. -/
theorem c4_connect_message_witness :
    (handleLine env0 (initState "db" "u" "p" "h" 5432) "\\c app").out
      = [Output.msg "You are now connected to database \"app\" as user \"u\""] := by
  have h := c4_connect_message env0 (initState "db" "u" "p" "h" 5432) "\\c app"
      ("\\c app".data) "app" (by decide) rfl (by decide) (by decide) rfl
  simpa using h

/-- C4 counterexample: the message printed by the source has no trailing
period, so it is not the exact text the claim states. -/
theorem c4_message_has_no_period :
    (runSession env0 (initState "db" "u" "p" "h" 5432) ["\\c app"]).out
      = [Output.msg "You are now connected to database \"app\" as user \"u\""] ∧
    Output.msg "You are now connected to database \"app\" as user \"u\""
      ≠ Output.msg "You are now connected to database \"app\" as user \"u\"." := by
  decide

/-- C5: for every backslash-c command whose parsed name differs from the
active database, connection replacement is performed: the close of the
current client is initiated and one replacement client is created and
connected with the new database name and the same user, password, host
and port; the session then records the new database name. -/
theorem c5_connection_replacement (env : Env) (s : SessionState) (line : String)
    (t : List Char) (d : String)
    (ht : trimL (s.text ++ '\n' :: line.data) = t)
    (hterm : s.terminated = false)
    (hpre : "\\c".data.isPrefixOf t = true)
    (hmatch : matchConnect t = some d)
    (hdiff : d ≠ s.database)
    (hok : env.connect ⟨d, s.user, s.password, s.host, s.port⟩ = .ok ()) :
    handleLine env s line =
      { s with
          text := [],
          database := d, clientConnected := true,
          closedCount := s.closedCount + 1,
          connLog := s.connLog ++ [⟨d, s.user, s.password, s.host, s.port⟩],
          out := s.out ++ [.msg (connectedMsg d s.user)] } :=
  handleLine_connect_ok env s line t d ht hterm hpre hmatch hok

/-- C5 witness: switching a fresh session on db to app replaces the
connection using the unchanged credentials. -/
theorem c5_connection_replacement_witness :
    handleLine env0 (initState "db" "u" "p" "h" 5432) "\\c app" =
      { initState "db" "u" "p" "h" 5432 with
          text := [],
          database := "app", clientConnected := true,
          closedCount := 1,
          connLog := [⟨"app", "u", "p", "h", 5432⟩],
          out := [Output.msg (connectedMsg "app" "u")] } := by
  have h := c5_connection_replacement env0 (initState "db" "u" "p" "h" 5432) "\\c app"
      ("\\c app".data) "app" (by decide) rfl (by decide) (by decide) (by decide) rfl
  simpa using h

/-- C6: classification follows the stated priority order with first
match winning: backslash-d-plus is ListTablesWithCounts and never
DescribeTable or ListTables; backslash-d users; is DescribeTable of
users although it ends with a semicolon; and in general a text starting
with any meta-command marker is never classified as a raw query. -/
theorem c6_classify_priority :
    classify "\\d+".data = Command.ListTablesWithCounts ∧
    classify "\\d users;".data = Command.DescribeTable "users" ∧
    (∀ t : List Char,
      ("\\q".data.isPrefixOf t = true ∨ "\\c".data.isPrefixOf t = true ∨
       "\\l".data.isPrefixOf t = true ∨ "\\d".data.isPrefixOf t = true) →
      ∀ sql : List Char, classify t ≠ Command.RawQuery sql) := by
  refine ⟨by decide, by decide, ?_⟩
  intro t h sql
  rcases h with h | h | h | h
  · obtain ⟨r, rfl⟩ := two_prefix_exists '\\' 'q' h
    unfold classify
    intro hx
    repeat' split at hx
    all_goals simp_all [List.isPrefixOf, ite_eq_iff]
  · obtain ⟨r, rfl⟩ := two_prefix_exists '\\' 'c' h
    unfold classify
    intro hx
    repeat' split at hx
    all_goals simp_all [List.isPrefixOf, ite_eq_iff]
  · obtain ⟨r, rfl⟩ := two_prefix_exists '\\' 'l' h
    unfold classify
    intro hx
    repeat' split at hx
    all_goals simp_all [List.isPrefixOf, ite_eq_iff]
  · obtain ⟨r, rfl⟩ := two_prefix_exists '\\' 'd' h
    unfold classify
    intro hx
    repeat' split at hx
    all_goals simp_all [List.isPrefixOf, ite_eq_iff]

/-- C6 witness: a backslash-c text ending with a semicolon is not a raw
query. -/
theorem c6_classify_priority_witness :
    classify "\\c app;".data ≠ Command.RawQuery "\\c app;".data :=
  c6_classify_priority.2.2 "\\c app;".data (Or.inr (Or.inl (by decide)))
    "\\c app;".data

/-- Modelled from the spec: the external database collaborator, the
Connection.query interface of section 6 of the specification, for a
server where table t holds three rows. By standard SQL semantics the
query select count(*) from t; returns a single row whose count column
holds 3, so its rowCount, the number of returned rows, is 1. -/
def env7 : Env where
  query := fun _ sql =>
    if sql = "select count(*) from t;".data then
      .ok ⟨[[("count", Value.nat 3)]], 1, ["count"]⟩
    else .error ⟨"relation does not exist"⟩
  connect := fun _ => .ok ()
  scanTables := fun _ => .ok []
  evalKnex := fun _ _ => .error ⟨"not used"⟩

/-- C7 counterexample: in the stated scenario the produced Rows result
carries one row, so the row count rendered and carried by the result is
1 and not 3; the number 3 only appears as the value inside the row. -/
theorem c7_rowcount_is_one :
    (runSession env7 (initState "db" "u" "p" "h" 5432) ["select count(*) from t;"]).out
      = [Output.rows [[("count", Value.nat 3)]] 1] ∧ (1 : Nat) ≠ 3 := by
  decide

/-- C7 (amended): in the stated scenario the query text is sent verbatim
to the connection and the produced Rows result holds exactly one row
whose count value is 3, with a row count of 1. -/
theorem c7_count_scenario :
    (runSession env7 (initState "db" "u" "p" "h" 5432) ["select count(*) from t;"]).sqlLog
      = [("db", "select count(*) from t;".data)] ∧
    (runSession env7 (initState "db" "u" "p" "h" 5432) ["select count(*) from t;"]).out
      = [Output.rows [[("count", Value.nat 3)]] 1] := by
  decide

/-- Environment for the stale-introspection scenario of C8: the server
of dbA has only table t1, the server of dbB has tables t1 and t2, and
reconnects succeed. -/
def env8 : Env where
  query := fun _ _ => .error ⟨"not used"⟩
  connect := fun _ => .ok ()
  scanTables := fun db =>
    if db = "dbA" then .ok [⟨"t1", "table t1 of dbA"⟩]
    else if db = "dbB" then .ok [⟨"t1", "table t1 of dbB"⟩, ⟨"t2", "table t2 of dbB"⟩]
    else .ok []
  evalKnex := fun _ _ => .error ⟨"not used"⟩

/-- C8: the session starts on dbA, describes t1 there, switches to dbB,
then asks to describe t2. The lazily created knex handle of getKnex
(cli.ts lines 160 to 174) captured dbA at its first use and is never
replaced, so the description runs against dbA and reports that t2 does
not exist, although the newly active dbB has t2: introspection does
cache the connection across the switch, against the claim. -/
theorem c8_stale_knex_introspection :
    (runSession env8 (initState "dbA" "u" "p" "h" 5432) ["\\d t1", "\\c dbB", "\\d t2"]).database
      = "dbB" ∧
    (runSession env8 (initState "dbA" "u" "p" "h" 5432) ["\\d t1", "\\c dbB", "\\d t2"]).knexDb
      = some "dbA" ∧
    (runSession env8 (initState "dbA" "u" "p" "h" 5432) ["\\d t1", "\\c dbB", "\\d t2"]).out
      = [Output.msg "table t1 of dbA",
         Output.msg (connectedMsg "dbB" "u"),
         Output.msg "Did not find any relation named \"t2\"."] ∧
    env8.scanTables "dbB" = .ok [⟨"t1", "table t1 of dbB"⟩, ⟨"t2", "table t2 of dbB"⟩] := by
  refine ⟨by decide, by decide, by decide, ?_⟩
  rfl

/-- C9: when the body of onLine throws while executing a command, the
error is caught at the per-command boundary and printed as a record
holding the offending input text, the pending input is cleared, and the
session stays unterminated, ready for the next line. -/
theorem c9_error_recovery (env : Env) (s : SessionState) (line : String)
    (t : List Char) (st : SessionState) (e : PgError)
    (ht : trimL (s.text ++ '\n' :: line.data) = t)
    (hterm : s.terminated = false)
    (hq : "\\q".data.isPrefixOf t = false)
    (herr : onLineTry env { s with text := t } = .error (st, e)) :
    handleLine env s line =
      { st with text := [], out := st.out ++ [.err (String.mk t) e] } ∧
    (handleLine env s line).terminated = false := by
  have htext : st.text = t := by simpa using (onLineTry_err herr).2
  have hterm2 : st.terminated = false := by
    have h2 := (onLineTry_err herr).1
    simpa [hterm] using h2
  have hmain : handleLine env s line =
      { st with text := [], out := st.out ++ [.err (String.mk t) e] } := by
    unfold handleLine
    rw [ht]
    rw [if_neg (by simp [hterm])]
    rw [if_neg (by simpa using classify_ne_quit hq)]
    rw [runOnLine_of_err herr, htext]
  refine ⟨hmain, ?_⟩
  rw [hmain]
  simpa using hterm2

/-- Environment whose queries always fail, for the C9 witness. -/
def envErr : Env where
  query := fun _ _ => .error ⟨"boom"⟩
  connect := fun _ => .ok ()
  scanTables := fun _ => .error ⟨"boom"⟩
  evalKnex := fun _ _ => .error ⟨"boom"⟩

/-- C9 witness: a failing query in a fresh session is printed with the
offending text, the pending input is cleared and the loop continues. -/
theorem c9_error_recovery_witness :
    (handleLine envErr (initState "db" "u" "p" "h" 5432) "select 1;" =
      { initState "db" "u" "p" "h" 5432 with
          text := [],
          sqlLog := [("db", "select 1;".data)],
          out := [Output.err "select 1;" ⟨"boom"⟩] }) ∧
    (handleLine envErr (initState "db" "u" "p" "h" 5432) "select 1;").terminated
      = false := by
  have h := c9_error_recovery envErr (initState "db" "u" "p" "h" 5432) "select 1;"
      ("select 1;".data)
      { initState "db" "u" "p" "h" 5432 with
          text := "select 1;".data,
          sqlLog := [("db", "select 1;".data)] }
      ⟨"boom"⟩ (by decide) rfl (by decide) rfl
  simpa using h

/-- Environment whose connect always fails, for the C10 witness. -/
def envFail : Env where
  query := fun _ _ => .error ⟨"not used"⟩
  connect := fun _ => .error ⟨"connection refused"⟩
  scanTables := fun _ => .error ⟨"not used"⟩
  evalKnex := fun _ _ => .error ⟨"not used"⟩

/-- C10: when a backslash-c command with a parsed name fails to connect,
the failure is caught at the per-command boundary and the loop
continues, but the session is not rolled back: the close of the previous
client was already initiated, the active database name is already the
new one, and the installed replacement client never connected, so the
session points at the new name without a usable connection. -/
theorem c10_connect_failure (env : Env) (s : SessionState) (line : String)
    (t : List Char) (d : String) (e : PgError)
    (ht : trimL (s.text ++ '\n' :: line.data) = t)
    (hterm : s.terminated = false)
    (hpre : "\\c".data.isPrefixOf t = true)
    (hmatch : matchConnect t = some d)
    (hfail : env.connect ⟨d, s.user, s.password, s.host, s.port⟩ = .error e) :
    handleLine env s line =
      { s with
          text := [],
          database := d, clientConnected := false,
          closedCount := s.closedCount + 1,
          connLog := s.connLog ++ [⟨d, s.user, s.password, s.host, s.port⟩],
          out := s.out ++ [.err (String.mk t) e] } ∧
    (handleLine env s line).terminated = false := by
  have h := handleLine_connect_err env s line t d e ht hterm hpre hmatch hfail
  refine ⟨h, ?_⟩
  rw [h]
  simpa using hterm

/-- C10 witness: a failed switch leaves a fresh session on db pointing
at app with no usable connection, and the loop continues. -/
theorem c10_connect_failure_witness :
    (handleLine envFail (initState "db" "u" "p" "h" 5432) "\\c app" =
      { initState "db" "u" "p" "h" 5432 with
          text := [],
          database := "app", clientConnected := false,
          closedCount := 1,
          connLog := [⟨"app", "u", "p", "h", 5432⟩],
          out := [Output.err "\\c app" ⟨"connection refused"⟩] }) ∧
    (handleLine envFail (initState "db" "u" "p" "h" 5432) "\\c app").terminated
      = false := by
  have h := c10_connect_failure envFail (initState "db" "u" "p" "h" 5432) "\\c app"
      ("\\c app".data) "app" ⟨"connection refused"⟩ (by decide) rfl (by decide)
      (by decide) rfl
  simpa using h
